import Mathlib

/-!
Shallow embedding of the command-property configuration engine and the
serialized-transaction layer of `pymeasure/instruments/instrument.py`
(classes `DynamicProperty` and `Instrument`), together with theorems
settling the frozen claims about it.

Conventions used throughout:
* Python dynamic values are modelled by `PyVal` (integers, strings, lists).
* Python `dict`s and instance `__dict__`s are modelled as insertion-ordered
  association lists with update-in-place assignment (`setD` / `lookupD`).
* Python exceptions are modelled by the `Err` type; a function that can raise
  returns `Except Err _`.  A loop that can run forever is modelled with an
  `Option` layer, `none` standing for non-termination.
* Real time in `_wait_until_ready` is modelled in tenths of a second (the
  poll sleep interval `sleep(0.1)` advances the clock by one tick; transport
  calls are modelled as instantaneous).
-/

namespace PyMeasure

/-- A scalar Python runtime value (an integer or a string).  The tokens the
adapter's `values` call returns are scalars. -/
inductive PyScalar where
  | int : Int → PyScalar
  | str : String → PyScalar
deriving DecidableEq, Repr, Inhabited

/-- A Python runtime value, as far as the embedded code needs it: integers,
strings, and lists of scalars (the embedding does not need deeper nesting). -/
inductive PyVal where
  | int : Int → PyVal
  | str : String → PyVal
  | list : List PyScalar → PyVal
deriving DecidableEq, Repr, Inhabited

/-- View a scalar token as a `PyVal`. -/
def PyScalar.toVal : PyScalar → PyVal
  | .int n => .int n
  | .str s => .str s

/-- Whitespace test used by the model of Python `str.strip()`. -/
def pyIsSpace (c : Char) : Bool :=
  c = ' ' || c = '\t' || c = '\n' || c = '\r'

/-- Model of Python `str.strip()` (kernel-computable, working on the
character list; `String.trim` itself is not kernel-reducible). -/
def pyStrip (s : String) : String :=
  ⟨((s.data.dropWhile pyIsSpace).reverse.dropWhile pyIsSpace).reverse⟩

/-- Model of Python `str.startswith(p)` (kernel-computable). -/
def pyStartswith (s p : String) : Bool :=
  p.data.isPrefixOf s.data

/-- The exceptions the embedded code can raise.  The spec's error taxonomy maps
onto them as follows: `UnsupportedOperation` is the `LookupError` raised by
`control.fget`/`control.fset`, `InvalidValue` is the validator's exception,
`ValueNotFound` is the `KeyError` of a failed mapping lookup, `Timeout` is
`TimeoutError`, and `CommunicationError` is the `RuntimeError` raised by
`check_errors`. -/
inductive Err where
  | lookupError : String → Err
  | invalidValue : Err
  | keyError : Err
  | valueError : String → Err
  | indexError : Err
  | timeoutError : Err
  | runtimeError : String → Err
  | typeError : String → Err
  | attributeError : String → Err
  | notImplementedError : String → Err
deriving DecidableEq, Repr

/-! ### Association-list model of Python dictionaries -/

/-- Lookup in a Python dict (association list). -/
def lookupD {α : Type} (d : List (String × α)) (k : String) : Option α :=
  match d with
  | [] => none
  | (k', v) :: rest => if k' = k then some v else lookupD rest k

/-- Assignment `d[k] = v` in a Python dict: replace in place when the key is
present, append otherwise. -/
def setD {α : Type} (d : List (String × α)) (k : String) (v : α) :
    List (String × α) :=
  match d with
  | [] => [(k, v)]
  | (k', v') :: rest =>
      if k' = k then (k, v) :: rest else (k', v') :: setD rest k v

theorem lookupD_setD_same {α : Type} (d : List (String × α)) (k : String) (v : α) :
    lookupD (setD d k v) k = some v := by
  induction d with
  | nil => simp [setD, lookupD]
  | cons p rest ih =>
      by_cases h : p.1 = k
      · simp [setD, lookupD, h]
      · simp [setD, lookupD, h, ih]

theorem lookupD_setD_other {α : Type} (d : List (String × α)) (k k' : String)
    (v : α) (hne : k' ≠ k) : lookupD (setD d k v) k' = lookupD d k' := by
  induction d with
  | nil => simp [setD, lookupD, Ne.symm hne]
  | cons p rest ih =>
      by_cases h : p.1 = k
      · simp [setD, lookupD, h, Ne.symm hne]
      · simp [setD, lookupD, h, ih]

/-! ### Dynamic-property attribute machinery

Embedding of `Instrument._fget_params_list` / `_fset_params_list`, the
reserved-name computation `_setup_special_names`, the attribute interception
`__setattr__` / `__getattribute__`, and the per-access parameter resolution
performed by `DynamicProperty.__get__` / `__set__`.

A Python class in the session's method-resolution order is modelled by
`PyClass`: the names of the `DynamicProperty` attributes in its `__dict__`
and its plain class variables.  Attribute values are kept generic in `α`
(overrides may be tuples, dicts, or functions). -/

/-- Embeds `Instrument._fget_params_list`. -/
def fgetParamsList : List String :=
  ["get_command", "values", "map_values", "get_process", "command_process"]

/-- Embeds `Instrument._fset_params_list`. -/
def fsetParamsList : List String :=
  ["set_command", "validator", "values", "map_values", "set_process",
   "command_process"]

/-- Embeds `tuple(set(self._fget_params_list + self._fset_params_list))` — the set of
configurable parameter names (order of the Python set iteration is
irrelevant; only membership is used). -/
def dynamicParams : List String := (fgetParamsList ++ fsetParamsList).dedup

/-- Embeds `Instrument.__reserved_prefix`, the string `"___"` put in front of
special variable names when they are stored at instance level. -/
def reservedPfx : String := "___"

/-- One class of `(self,) + self.__class__.__mro__`: the names of its
`DynamicProperty` class attributes, and its plain class variables.
(At construction time the instance `__dict__` holds no `DynamicProperty`
and no specially-named variable, so the `(self,)` element contributes
nothing and the model ranges over the classes only.) -/
structure PyClass (α : Type) where
  dynprops : List String
  vars : List (String × α)

/-- First loop of `Instrument._setup_special_names`: for every
`DynamicProperty` attribute found anywhere in the method-resolution order,
reserve the names `<property name>_<param name>`. -/
def specialNamesOf {α : Type} (mro : List (PyClass α)) : List String :=
  mro.flatMap fun c =>
    c.dynprops.flatMap fun p => dynamicParams.map fun k => p ++ "_" ++ k

/-- Second loop of `Instrument._setup_special_names`: walk
`(self,) + self.__class__.__mro__` in order (most-derived class first) and,
for every class variable whose name is special, `setattr` the value on the
instance under the reserved-prefixed name.  Each assignment overwrites the
previous one, so for a name declared by several classes the value of the
*last* class in the iteration (the least-derived one) is the one retained. -/
def snapshotOverrides {α : Type} (mro : List (PyClass α)) (special : List String)
    (d : List (String × α)) : List (String × α) :=
  mro.foldl
    (fun d c =>
      c.vars.foldl
        (fun d kv =>
          if kv.1 ∈ special then setD d (reservedPfx ++ kv.1) kv.2 else d)
        d)
    d

/-- Embeds `object.__getattribute__` default lookup, as far as plain values are
concerned: instance `__dict__` first, then the class `__dict__`s along the
method-resolution order.  (Descriptor dispatch for `DynamicProperty`
attributes themselves is modelled separately by `dynParamResolve` /
`fget` / `fset`.) -/
def objectGetattr {α : Type} (mro : List (PyClass α)) (d : List (String × α))
    (name : String) : Option α :=
  match lookupD d name with
  | some v => some v
  | none => mro.findSome? fun c => lookupD c.vars name

/-- Embeds `Instrument.__setattr__`: names in `_special_names` are stored under the
reserved-prefixed name; every other name is stored as-is.  (The
`hasattr(self, "_special_names")` guard holds for every constructed
session, which is what the claims are about.) -/
def instSetattr {α : Type} (special : List String) (d : List (String × α))
    (name : String) (v : α) : List (String × α) :=
  if name ∈ special then setD d (reservedPfx ++ name) v else setD d name v

/-- Embeds `Instrument.__getattribute__`: `"_special_names"` and `"__dict__"` pass
through; reading any name in `_special_names` raises `AttributeError`;
everything else falls back to the default lookup (which itself raises
`AttributeError` when the name is found nowhere). -/
def instGetattr {α : Type} (mro : List (PyClass α)) (special : List String)
    (d : List (String × α)) (name : String) : Except Err α :=
  if name = "_special_names" ∨ name = "__dict__" then
    match objectGetattr mro d name with
    | some v => .ok v
    | none => .error (.attributeError name)
  else if name ∈ special then
    .error (.attributeError
      (name ++ " is a reserved variable name and it cannot be read"))
  else
    match objectGetattr mro d name with
    | some v => .ok v
    | none => .error (.attributeError name)

/-- The per-parameter resolution performed by `DynamicProperty.__get__` and
`__set__` on every access: `hasattr(obj, "___" + name + "_" + attr)` (which
goes through `Instrument.__getattribute__`) selects the stored override,
else the keyword argument keeps the default declared in the command
specification. -/
def dynParamResolve {α : Type} (mro : List (PyClass α)) (special : List String)
    (d : List (String × α)) (propName param : String) (dflt : α) : α :=
  match (instGetattr mro special d
      (reservedPfx ++ (propName ++ "_" ++ param))).toOption with
  | some v => v
  | none => dflt

/-- The instance-level attribute state right after construction: special
names computed from the method-resolution order, and the class-level
overrides snapshotted into the (initially override-free) instance dict. -/
def constructedDict {α : Type} (mro : List (PyClass α)) : List (String × α) :=
  snapshotOverrides mro (specialNamesOf mro) []

/-! ### The command descriptor: `Instrument.control` and its `fget`/`fset` -/

/-- The `values` parameter of `Instrument.control`: a sequence (`list`,
`tuple` or `range`), a mapping (`dict`, insertion-ordered), or a value of
any other type (which both mapping branches reject with `ValueError`). -/
inductive Values where
  | seq : List PyVal → Values
  | dict : List (PyVal × PyVal) → Values
  | other : Values
deriving DecidableEq, Repr, Inhabited

/-- The effective configuration of one command access: the parameters of
`Instrument.control` after dynamic resolution.  `validator` may raise, so it
returns `Except`; the processors are pure. -/
structure ControlSpec where
  get_command : Option String
  set_command : Option String
  validator : PyVal → Values → Except Err PyVal
  values : Values
  map_values : Bool
  get_process : PyVal → PyVal
  set_process : PyVal → PyVal
  command_process : String → String

/-- A transport operation issued by a command access: `queryValues c` is the
`self.values(c)` transaction of `fget`, `write c v` is the
`self.write(c % v)` transaction of `fset` (the template and the value
formatted into it are carried separately, since `%`-formatting is a Python
builtin outside the embedded core). -/
inductive TransportOp where
  | queryValues : String → TransportOp
  | write : String → PyVal → TransportOp
deriving DecidableEq, Repr

/-- Python `int(value)` as used by `fget` on the decoded token before
indexing into a sequence of mapped values: integers pass through, strings
are parsed, anything else raises. -/
def pyInt : PyVal → Option Int
  | .int n => some n
  | .str s => s.toInt?
  | .list _ => none

/-- Python sequence indexing `l[i]`, with negative-index wraparound and
`IndexError` out of bounds. -/
def pyIndex (l : List PyVal) (i : Int) : Except Err PyVal :=
  let j := if i < 0 then i + l.length else i
  if j < 0 then .error .indexError
  else
    match l.get? j.toNat with
    | some v => .ok v
    | none => .error .indexError

/-- Python `values.index(value)` on a sequence (index-accumulator form):
position of the first element equal to the value, `ValueError` when
absent. -/
def listIndexAux (l : List PyVal) (v : PyVal) (i : Nat) : Except Err Int :=
  match l with
  | [] => .error (.valueError "value not in sequence")
  | x :: rest =>
      if x = v then .ok (i : Int) else listIndexAux rest v (i + 1)

/-- Python `values.index(value)` on a sequence. -/
def listIndex (l : List PyVal) (v : PyVal) : Except Err Int :=
  listIndexAux l v 0

/-- Python `values[value]` on a dict (forward lookup used by `fset`):
`KeyError` when the key is absent. -/
def dictGet (m : List (PyVal × PyVal)) (k : PyVal) : Except Err PyVal :=
  match m.find? (fun p => p.1 = k) with
  | some p => .ok p.2
  | none => .error .keyError

/-- The reverse lookup of `fget`: `for k, v in values.items(): if v == value:
return k`, raising `KeyError` when no entry's value matches. -/
def dictReverseLookup (m : List (PyVal × PyVal)) (v : PyVal) : Except Err PyVal :=
  match m.find? (fun p => p.2 = v) with
  | some p => .ok p.1
  | none => .error .keyError

/-- Embeds `fget` of `Instrument.control`: answers the read access given the
effective configuration and the session's `values` transaction (modelled as
the function from the issued command string to the decoded token list).
Returns the result together with the transport operations issued. -/
def fget (spec : ControlSpec) (queryValues : String → List PyScalar) :
    Except Err PyVal × List TransportOp :=
  match spec.get_command with
  | none => (.error (.lookupError "Instrument property can not be read."), [])
  | some gc =>
    let cmd := spec.command_process gc
    let vals := queryValues cmd
    let ops := [TransportOp.queryValues cmd]
    match vals with
    | [t] =>
      let value := spec.get_process t.toVal
      if spec.map_values = false then (.ok value, ops)
      else
        match spec.values with
        | .seq l =>
          match pyInt value with
          | none => (.error (.typeError "int() argument"), ops)
          | some i =>
            match pyIndex l i with
            | .ok w => (.ok w, ops)
            | .error e => (.error e, ops)
        | .dict m =>
          match dictReverseLookup m value with
          | .ok k => (.ok k, ops)
          | .error e => (.error e, ops)
        | .other =>
          (.error (.valueError
            "Values of this type are not allowed for Instrument.control"), ops)
    | _ => (.ok (spec.get_process (.list vals)), ops)

/-- Embeds `fset` of `Instrument.control`: answers the write access given the
effective configuration.  Returns the result together with the transport
operations issued. -/
def fset (spec : ControlSpec) (value : PyVal) :
    Except Err Unit × List TransportOp :=
  match spec.set_command with
  | none => (.error (.lookupError "Instrument property can not be set."), [])
  | some sc =>
    match spec.validator value spec.values with
    | .error e => (.error e, [])
    | .ok v0 =>
      let v1 := spec.set_process v0
      let mapped : Except Err PyVal :=
        if spec.map_values = false then .ok v1
        else
          match spec.values with
          | .seq l => (listIndex l v1).map PyVal.int
          | .dict m => dictGet m v1
          | .other =>
            .error (.valueError
              "Values of this type are not allowed for Instrument.control")
      match mapped with
      | .error e => (.error e, [])
      | .ok v2 => (.ok (), [TransportOp.write (spec.command_process sc) v2])

/-- The identity validator `lambda v, vs: v`, the default of
`Instrument.control`. -/
def idValidator : PyVal → Values → Except Err PyVal := fun v _ => .ok v

/-- Embeds `Instrument.control` as a specification builder (the descriptor wiring
itself — plain `property` versus `DynamicProperty` — is the attribute
machinery above; the command behaviour is fully described by the
`ControlSpec` both share). -/
def control (gc sc : Option String)
    (validator : PyVal → Values → Except Err PyVal) (values : Values)
    (map_values : Bool) (get_process set_process : PyVal → PyVal)
    (command_process : String → String) : ControlSpec :=
  ⟨gc, sc, validator, values, map_values, get_process, set_process,
   command_process⟩

/-- Embeds `Instrument.measurement`: read-only specialization, passing
`set_command=None` to `control` (its `map_values=None` default is falsy in
`fget`'s `if not map_values`, hence modelled as `false` when left off). -/
def measurement (gc : String) (values : Values) (map_values : Bool)
    (get_process : PyVal → PyVal) (command_process : String → String) :
    ControlSpec :=
  control (some gc) none idValidator values map_values get_process
    (fun v => v) command_process

/-- Embeds `Instrument.setting`: write-only specialization, passing
`get_command=None` to `control`. -/
def setting (sc : String) (validator : PyVal → Values → Except Err PyVal)
    (values : Values) (map_values : Bool) (set_process : PyVal → PyVal) :
    ControlSpec :=
  control none (some sc) validator values map_values (fun v => v) set_process
    (fun c => c)

/-! ### The serialized-transaction layer of `Instrument`

Time is counted in tenths of a second: each iteration of the readiness poll
sleeps `0.1 s`, so advances the clock by one tick; transport calls are
modelled as instantaneous.  The device at the other end of the adapter is
modelled by `Device`: its reply to the completion query as a function of
the tick at which it is polled, the successive replies of its error queue,
and its replies to ordinary commands. -/

/-- The simulated device behind the adapter. -/
structure Device where
  opc : Nat → String
  errReplies : List String
  askReply : String → String
  readReply : String
  valuesReply : String → List PyScalar
  binaryReply : String → List PyScalar

/-- The session state fields set up by `Instrument.__init__` that the
embedded methods consult. -/
structure InstrumentState where
  name : String
  scpi : Bool
  communication_success : Bool
  lockLocked : Bool
  isShutdown : Bool
  idStartsWith : String
  specialNames : List String
  instDict : List (String × PyVal)
deriving Repr

/-- The default `timeout=10` seconds of `Instrument._wait_until_ready`,
in tenths of a second. -/
def defaultTimeoutTicks : Nat := 100

/-- The loop of `Instrument._wait_until_ready` on a SCPI instrument:
`self.complete` is `True` exactly when the (stripped) reply to `*OPC?` is
`"1"` (`"0"` is `False` and anything else is `None`, both falsy, so the
loop continues); after a falsy poll, if the clock has passed `endT` the
loop raises `TimeoutError`, otherwise it sleeps one tick and polls again.
On success it returns the tick of the succeeding poll. -/
def waitUntilReady (opc : Nat → String) (t endT : Nat) : Except Err Nat :=
  if pyStrip (opc t) = "1" then .ok t
  else if endT < t then .error .timeoutError
  else waitUntilReady opc (t + 1) endT
termination_by endT + 1 - t
decreasing_by simp_wf; omega

/-- Embeds `Instrument._wait_until_ready` including the dialect check performed by
its first call to `self.complete` (non-SCPI instruments raise
`NotImplementedError` there). -/
def waitUntilReadyTx (scpi : Bool) (opc : Nat → String) (t endT : Nat) :
    Except Err Nat :=
  if scpi then waitUntilReady opc t endT
  else .error (.notImplementedError
    "Non SCPI instruments require implementation in subclasses")

/-- The drain loop of `Instrument._flush_errors`: repeatedly query
`SYST:ERR?`; a reply not starting with `"+0"` is accumulated and the loop
continues; a reply starting with `"+0"` stops it.  The argument is the
sequence of successive error-queue replies; `none` models the loop running
forever because no sentinel ever arrives. -/
def drainErrors : List String → Option (List String)
  | [] => none
  | r :: rs =>
    if pyStartswith r "+0" then some []
    else (drainErrors rs).map fun es => r :: es

/-- Literal head of the message of the `RuntimeError` raised by
`Instrument.check_errors`. -/
def errMsgHead : String :=
  "Error read from error queue. First error read from the error queue is: "

/-- Literal tail of the message of the `RuntimeError` raised by
`Instrument.check_errors`. -/
def errMsgTail : String := "\nSee logs for more details"

/-- Embeds `Instrument._flush_errors`: on a SCPI instrument, wait until ready
(default timeout), then drain the error queue and return the accumulated
errors; otherwise raise `NotImplementedError`. -/
def flushErrorsTx (scpi : Bool) (dev : Device) (t : Nat) :
    Option (Except Err (List String)) :=
  if scpi then
    match waitUntilReady dev.opc t (t + defaultTimeoutTicks) with
    | .error e => some (.error e)
    | .ok _ => (drainErrors dev.errReplies).map Except.ok
  else
    some (.error (.notImplementedError
      "Non SCPI instruments require implementation in subclasses"))

/-- The decision of `Instrument.check_errors` given the drained error list:
raise a `RuntimeError` carrying the first error when the list is nonempty. -/
def checkErrorsDecision (errors : List String) : Except Err Unit :=
  match errors with
  | [] => .ok ()
  | e :: _ => .error (.runtimeError (errMsgHead ++ e ++ errMsgTail))

/-- Embeds `Instrument.check_errors`: flush the error queue, then fail the
transaction when any error was read. -/
def checkErrorsTx (scpi : Bool) (dev : Device) (t : Nat) :
    Option (Except Err Unit) :=
  (flushErrorsTx scpi dev t).map fun r =>
    match r with
    | .error e => .error e
    | .ok errors => checkErrorsDecision errors

/-- Embeds `Instrument.ask`: under the lock, optionally wait until ready, perform
`adapter.ask`, optionally check errors.  (`none` again models a drain that
never sees its sentinel.) -/
def ask (st : InstrumentState) (dev : Device) (command : String)
    (check_for_errors : Bool) : Option (Except Err String) :=
  if check_for_errors then
    match waitUntilReadyTx st.scpi dev.opc 0 defaultTimeoutTicks with
    | .error e => some (.error e)
    | .ok t1 =>
      let response := dev.askReply command
      (checkErrorsTx st.scpi dev t1).map fun r =>
        match r with
        | .error e => .error e
        | .ok _ => .ok response
  else some (.ok (dev.askReply command))

/-- Embeds `Instrument.write`: under the lock, wait until ready, perform
`adapter.write`, check errors. -/
def write (st : InstrumentState) (dev : Device) (command : String) :
    Option (Except Err Unit) :=
  match waitUntilReadyTx st.scpi dev.opc 0 defaultTimeoutTicks with
  | .error e => some (.error e)
  | .ok t1 =>
    let _ := command
    checkErrorsTx st.scpi dev t1

/-- Embeds `Instrument.read`: under the lock, wait until ready, perform
`adapter.read`, check errors. -/
def read (st : InstrumentState) (dev : Device) : Option (Except Err String) :=
  match waitUntilReadyTx st.scpi dev.opc 0 defaultTimeoutTicks with
  | .error e => some (.error e)
  | .ok t1 =>
    let response := dev.readReply
    (checkErrorsTx st.scpi dev t1).map fun r =>
      match r with
      | .error e => .error e
      | .ok _ => .ok response

/-- Embeds `Instrument.values`: under the lock, wait until ready, perform
`adapter.values`, check errors. -/
def values (st : InstrumentState) (dev : Device) (command : String) :
    Option (Except Err (List PyScalar)) :=
  match waitUntilReadyTx st.scpi dev.opc 0 defaultTimeoutTicks with
  | .error e => some (.error e)
  | .ok t1 =>
    let response := dev.valuesReply command
    (checkErrorsTx st.scpi dev t1).map fun r =>
      match r with
      | .error e => .error e
      | .ok _ => .ok response

/-- Embeds `Instrument.binary_values`: under the lock, wait until ready, perform
`adapter.binary_values`, check errors. -/
def binary_values (st : InstrumentState) (dev : Device) (command : String) :
    Option (Except Err (List PyScalar)) :=
  match waitUntilReadyTx st.scpi dev.opc 0 defaultTimeoutTicks with
  | .error e => some (.error e)
  | .ok t1 =>
    let response := dev.binaryReply command
    (checkErrorsTx st.scpi dev t1).map fun r =>
      match r with
      | .error e => .error e
      | .ok _ => .ok response

/-! ### Base vocabulary and session-level operations -/

/-- Embeds `Instrument.get_id`: `self.ask("*IDN?", check_errs).strip()` on a SCPI
instrument.  Its single keyword parameter is named `check_errs`. -/
def get_id (scpi : Bool) (idnReply : String) (check_errs : Bool) :
    Except Err String :=
  if scpi then
    let _ := check_errs
    .ok (pyStrip idnReply)
  else
    .error (.notImplementedError
      "Non SCPI instruments require implementation in subclasses")

/-- The keyword-parameter names `Instrument.get_id` accepts
(`def get_id(self, check_errs=True)`). -/
def getIdKeywords : List String := ["check_errs"]

/-- A Python keyword-argument call of `get_id`: passing a keyword whose name
is not among the parameters raises `TypeError` before the body runs. -/
def callGetIdKw (kw : String) (impl : Bool → Except Err String) (arg : Bool) :
    Except Err String :=
  if kw ∈ getIdKeywords then impl arg
  else .error (.typeError ("get_id() got an unexpected keyword argument " ++ kw))

/-- Embeds `Instrument.status`: when the last identification probe failed,
re-probe via `self.get_id(check_for_errors=False)` — note the keyword name
at this call site — and either recover (`"ok: ON"`, resetting the health
flag) or report the warning; when the last probe succeeded, report
`"ok: busy"` when the lock is held, `"ok: ON"` otherwise.  Returns the
status string and the updated state. -/
def status (st : InstrumentState) (idnReply : String) :
    Except Err (String × InstrumentState) :=
  if st.communication_success = false then
    match callGetIdKw "check_for_errors" (get_id st.scpi idnReply) false with
    | .error e => .error e
    | .ok id =>
      if pyStartswith id st.idStartsWith then
        .ok ("ok: ON", { st with communication_success := true })
      else .ok ("warning: Cannot communicate with device", st)
  else if st.lockLocked then .ok ("ok: busy", st)
  else .ok ("ok: ON", st)

/-- Embeds `Instrument.shutdown`: sets the shutdown flag (and logs). -/
def shutdown (st : InstrumentState) : InstrumentState :=
  { st with isShutdown := true }

/-- Embeds `Instrument.__exit__`: calls `self.shutdown()` unconditionally,
whether or not the `with` block raised. -/
def exitContext (st : InstrumentState) (excOccurred : Bool) : InstrumentState :=
  let _ := excOccurred
  shutdown st

/-! ### Claims C3 and C8: failures of the write / read transaction -/

/-- Modelled from the spec: the strict validators of
`pymeasure.instruments.validators` (a module of this repository that is not
under `src/`), whose call contract the spec gives as
`validator(value, allowed) -> value | fails`, failing with `InvalidValue`
when the value is outside `allowed_values` (membership for sequences and
mappings).  Used only to instantiate witnesses; the claim theorems are
generic in the validator. -/
def strictValidator : PyVal → Values → Except Err PyVal := fun v vs =>
  match vs with
  | .seq l => if v ∈ l then .ok v else .error .invalidValue
  | .dict m => if v ∈ m.map Prod.fst then .ok v else .error .invalidValue
  | .other => .error .invalidValue

/-- C3: for every command with a write template, when the effective
validator fails on the value (the value is outside the effective
`allowed_values`), the write transaction fails with `InvalidValue` and the
transport's write primitive is never invoked: `fset` returns the
validator's `InvalidValue` failure and an empty transport log. -/
theorem C3_invalid_value_blocks_write (spec : ControlSpec) (v : PyVal)
    (sc : String) (hsc : spec.set_command = some sc)
    (hval : spec.validator v spec.values = .error .invalidValue) :
    fset spec v = (.error .invalidValue, []) := by
  simp [fset, hsc, hval]

/-- Concrete command specification for the C3 witness: allowed values are
the sequence `[1, 2]` with the strict membership validator. -/
def c3spec : ControlSpec :=
  control (some "V?") (some "V %d") strictValidator
    (.seq [.int 1, .int 2]) false (fun v => v) (fun v => v) (fun c => c)

/-- Witness for C3 at the out-of-range value `3`. -/
theorem C3_witness :
    c3spec.set_command = some "V %d"
    ∧ c3spec.validator (.int 3) c3spec.values = .error .invalidValue
    ∧ fset c3spec (.int 3) = (.error .invalidValue, []) :=
  ⟨rfl, rfl,
   C3_invalid_value_blocks_write c3spec (.int 3) "V %d" rfl rfl⟩

/-- C8: a command declared without a read template (in particular one built
by the write-only `setting` factory) fails every read access with
`UnsupportedOperation` (the `LookupError` of `fget`) and performs no
transport operation; symmetrically, a command declared without a write
template (in particular one built by the read-only `measurement` factory)
fails every write access with `UnsupportedOperation` and performs no
transport operation. -/
theorem C8_unsupported_direction :
    (∀ (spec : ControlSpec) (q : String → List PyScalar),
        spec.get_command = none →
        fget spec q =
          (.error (.lookupError "Instrument property can not be read."), []))
    ∧ (∀ (spec : ControlSpec) (v : PyVal),
        spec.set_command = none →
        fset spec v =
          (.error (.lookupError "Instrument property can not be set."), []))
    ∧ (∀ gc values mv gp cp,
        (measurement gc values mv gp cp).set_command = none)
    ∧ (∀ sc val values mv sp,
        (setting sc val values mv sp).get_command = none) := by
  refine ⟨?_, ?_, ?_, ?_⟩
  · intro spec q h; simp [fget, h]
  · intro spec v h; simp [fset, h]
  · intro gc values mv gp cp; rfl
  · intro sc val values mv sp; rfl

/-- Concrete write-only command for the C8 witness. -/
def c8setting : ControlSpec :=
  setting "S %d" idValidator (.seq []) false (fun v => v)

/-- Concrete read-only command for the C8 witness. -/
def c8meas : ControlSpec :=
  measurement "M?" (.seq []) false (fun v => v) (fun c => c)

/-- Witness for C8: reading the `setting`-built command and writing the
`measurement`-built command both fail without touching the transport. -/
theorem C8_witness :
    fget c8setting (fun _ => []) =
      (.error (.lookupError "Instrument property can not be read."), [])
    ∧ fset c8meas (.int 0) =
      (.error (.lookupError "Instrument property can not be set."), []) :=
  ⟨C8_unsupported_direction.1 c8setting (fun _ => []) rfl,
   C8_unsupported_direction.2.1 c8meas (.int 0) rfl⟩

/-! ### Claim C6: error-queue draining -/

theorem drainErrors_accumulates (pre : List String) (s : String)
    (rest : List String)
    (hpre : ∀ r ∈ pre, pyStartswith r "+0" = false)
    (hs : pyStartswith s "+0" = true) :
    drainErrors (pre ++ s :: rest) = some pre := by
  induction pre with
  | nil => simp [drainErrors, hs]
  | cons r rs ih =>
      have hr := hpre r (by simp)
      have ih' := ih fun x hx => hpre x (by simp [hx])
      simp [drainErrors, hr, ih']

/-- C6: when the error-queue replies consist of non-sentinel errors followed
by a reply starting with the no-error sentinel `+0`, and the instrument is
ready, `_flush_errors` issues the error query until the sentinel is
observed and returns every non-sentinel reply in order (the empty list when
the first reply is the sentinel); `check_errors` succeeds exactly when that
list is empty and otherwise fails the transaction with the
`CommunicationError` (`RuntimeError`) whose message carries the text of the
first accumulated error. -/
theorem C6_error_drain (dev : Device) (t : Nat) (pre : List String)
    (s : String) (rest : List String)
    (hq : dev.errReplies = pre ++ s :: rest)
    (hready : pyStrip (dev.opc t) = "1")
    (hpre : ∀ r ∈ pre, pyStartswith r "+0" = false)
    (hs : pyStartswith s "+0" = true) :
    flushErrorsTx true dev t = some (.ok pre)
    ∧ (pre = [] → checkErrorsTx true dev t = some (.ok ()))
    ∧ (∀ e es, pre = e :: es →
        checkErrorsTx true dev t =
          some (.error (.runtimeError (errMsgHead ++ e ++ errMsgTail)))) := by
  have hwait : waitUntilReady dev.opc t (t + defaultTimeoutTicks) = .ok t := by
    rw [waitUntilReady]; simp [hready]
  have hdrain := drainErrors_accumulates pre s rest hpre hs
  have hflush : flushErrorsTx true dev t = some (.ok pre) := by
    simp [flushErrorsTx, hwait, hq, hdrain]
  refine ⟨hflush, ?_, ?_⟩
  · intro hnil
    simp [checkErrorsTx, hflush, checkErrorsDecision, hnil]
  · intro e es hcons
    simp [checkErrorsTx, hflush, checkErrorsDecision, hcons]

/-- Concrete device for the C6 witness: the drain sees one fault and then
the sentinel. -/
def c6dev : Device :=
  ⟨fun _ => "1", ["-113, Undefined header", "+0, No error"],
   fun _ => "", "", fun _ => [], fun _ => []⟩

/-- Witness for C6: the drain accumulates the single fault and the
transaction-level check fails carrying its text. -/
theorem C6_witness :
    flushErrorsTx true c6dev 0 = some (.ok ["-113, Undefined header"])
    ∧ checkErrorsTx true c6dev 0 =
        some (.error (.runtimeError
          (errMsgHead ++ "-113, Undefined header" ++ errMsgTail))) := by
  have h := C6_error_drain c6dev 0 ["-113, Undefined header"] "+0, No error"
    [] rfl (by decide) (by intro r hr; simp at hr; subst hr; decide) (by decide)
  exact ⟨h.1, h.2.2 "-113, Undefined header" [] rfl⟩

/-! ### Claim C7: the readiness wait -/

theorem waitUntilReady_never_completes (opc : Nat → String)
    (h : ∀ n, pyStrip (opc n) ≠ "1") :
    ∀ (k t endT : Nat), endT + 1 - t ≤ k →
      waitUntilReady opc t endT = .error .timeoutError := by
  intro k
  induction k with
  | zero =>
      intro t endT hk
      rw [waitUntilReady]
      have hlt : endT < t := by omega
      simp [h t, hlt]
  | succ k ih =>
      intro t endT hk
      rw [waitUntilReady]
      by_cases hlt : endT < t
      · simp [h t, hlt]
      · simp [h t, hlt]
        exact ih (t + 1) endT (by omega)

theorem waitUntilReady_first_completion (opc : Nat → String) :
    ∀ (k t0 t' endT : Nat), t' - t0 ≤ k → t0 ≤ t' → t' ≤ endT →
      pyStrip (opc t') = "1" →
      (∀ s, t0 ≤ s → s < t' → pyStrip (opc s) ≠ "1") →
      waitUntilReady opc t0 endT = .ok t' := by
  intro k
  induction k with
  | zero =>
      intro t0 t' endT hk h1 h2 h3 _
      have ht : t' = t0 := by omega
      subst ht
      rw [waitUntilReady]; simp [h3]
  | succ k ih =>
      intro t0 t' endT hk h1 h2 h3 h4
      by_cases he : t0 = t'
      · subst he; rw [waitUntilReady]; simp [h3]
      · have hne := h4 t0 le_rfl (by omega)
        have hle : ¬ endT < t0 := by omega
        rw [waitUntilReady]
        simp [hne, hle]
        exact ih (t0 + 1) t' endT (by omega) (by omega) h2 h3
          (fun s hs hs' => h4 s (by omega) hs')

/-- C7: the readiness wait polls the completion query until it reports
complete.  When the completion query never reports complete, the wait
terminates with `Timeout` once the configured deadline has passed (it
neither returns normally nor polls forever), and a transaction built on it
(`write`) surfaces that `Timeout`; when some poll before the deadline
reports complete, the wait returns normally at that poll. -/
theorem C7_readiness_wait :
    (∀ (opc : Nat → String) (t0 d : Nat), (∀ n, pyStrip (opc n) ≠ "1") →
        waitUntilReady opc t0 (t0 + d) = .error .timeoutError)
    ∧ (∀ (opc : Nat → String) (t0 endT t' : Nat), t0 ≤ t' → t' ≤ endT →
        pyStrip (opc t') = "1" →
        (∀ s, t0 ≤ s → s < t' → pyStrip (opc s) ≠ "1") →
        waitUntilReady opc t0 endT = .ok t')
    ∧ (∀ (st : InstrumentState) (dev : Device) (cmd : String),
        st.scpi = true → (∀ n, pyStrip (dev.opc n) ≠ "1") →
        write st dev cmd = some (.error .timeoutError)) := by
  refine ⟨?_, ?_, ?_⟩
  · intro opc t0 d h
    exact waitUntilReady_never_completes opc h (t0 + d + 1 - t0) t0 (t0 + d)
      le_rfl
  · intro opc t0 endT t' h1 h2 h3 h4
    exact waitUntilReady_first_completion opc (t' - t0) t0 t' endT le_rfl
      h1 h2 h3 h4
  · intro st dev cmd hscpi h
    have hw : waitUntilReady dev.opc 0 defaultTimeoutTicks =
        .error .timeoutError :=
      waitUntilReady_never_completes dev.opc h (defaultTimeoutTicks + 1) 0
        defaultTimeoutTicks (by omega)
    simp [write, waitUntilReadyTx, hscpi, hw]

/-- Device for the C7 witness that never reports the completion query as
done. -/
def c7devStuck : Device :=
  ⟨fun _ => "0", [], fun _ => "", "", fun _ => [], fun _ => []⟩

/-- Session state for the C7 witness: a SCPI instrument. -/
def c7state : InstrumentState :=
  ⟨"inst", true, true, false, false, "ID", [], []⟩

/-- Witness for C7: with a device that never completes, the wait and the
`write` transaction fail with `Timeout`; with a device that completes at
the third poll, the wait returns normally at that poll. -/
theorem C7_witness :
    waitUntilReady c7devStuck.opc 0 (0 + defaultTimeoutTicks) =
      .error .timeoutError
    ∧ write c7state c7devStuck "CMD" = some (.error .timeoutError)
    ∧ waitUntilReady (fun n => if n < 2 then "0" else "1") 0 100 = .ok 2 := by
  refine ⟨C7_readiness_wait.1 c7devStuck.opc 0 defaultTimeoutTicks ?_,
    C7_readiness_wait.2.2 c7state c7devStuck "CMD" rfl ?_, ?_⟩
  · intro n; show pyStrip "0" ≠ "1"; decide
  · intro n; show pyStrip "0" ≠ "1"; decide
  · refine C7_readiness_wait.2.1 (fun n => if n < 2 then "0" else "1")
      0 100 2 (by omega) (by omega) (by decide) ?_
    intro s _ hs
    have : s = 0 ∨ s = 1 := by omega
    rcases this with h | h <;> subst h <;> decide

/-! ### Claim C4: decoding of the read transaction -/

/-- C4: for a command with a read template, when the decoded reply is
exactly one token, the returned value is `get_process` of the token and,
when `map_values` is set, is further translated through `values` — by
integer indexing when `values` is a sequence, by first key-by-value reverse
lookup when it is a mapping, failing with `ValueNotFound` (`KeyError`) when
no key maps to the value; when the reply has more than one token,
`get_process` is applied to the whole token list and the result is returned
without any value mapping. -/
theorem C4_read_decoding (spec : ControlSpec) (q : String → List PyScalar)
    (gc : String) (hgc : spec.get_command = some gc) :
    (∀ t : PyScalar, q (spec.command_process gc) = [t] →
      (spec.map_values = false →
        fget spec q = (.ok (spec.get_process t.toVal),
          [.queryValues (spec.command_process gc)]))
      ∧ (spec.map_values = true → ∀ l, spec.values = .seq l →
          (fget spec q).1 =
            (match pyInt (spec.get_process t.toVal) with
             | none => .error (.typeError "int() argument")
             | some i => pyIndex l i))
      ∧ (spec.map_values = true → ∀ m, spec.values = .dict m →
          ((∀ p ∈ m, ¬ p.2 = spec.get_process t.toVal) →
            (fget spec q).1 = .error .keyError)
          ∧ (∀ p : PyVal × PyVal,
              m.find? (fun p' => p'.2 = spec.get_process t.toVal) = some p →
              (fget spec q).1 = .ok p.1)))
    ∧ (∀ ts, q (spec.command_process gc) = ts → 1 < ts.length →
        fget spec q = (.ok (spec.get_process (.list ts)),
          [.queryValues (spec.command_process gc)])) := by
  constructor
  · intro t hq
    refine ⟨?_, ?_, ?_⟩
    · intro hmv
      simp [fget, hgc, hq, hmv]
    · intro hmv l hl
      cases hpi : pyInt (spec.get_process t.toVal) with
      | none => simp [fget, hgc, hq, hmv, hl, hpi]
      | some i =>
          cases hix : pyIndex l i with
          | ok w => simp [fget, hgc, hq, hmv, hl, hpi, hix]
          | error e => simp [fget, hgc, hq, hmv, hl, hpi, hix]
    · intro hmv m hm
      constructor
      · intro hnone
        have hf : m.find?
            (fun p' => p'.2 = spec.get_process t.toVal) = none := by
          apply List.find?_eq_none.mpr
          intro x hx
          simpa using hnone x hx
        simp [fget, hgc, hq, hmv, hm, dictReverseLookup, hf]
      · intro p hp
        simp [fget, hgc, hq, hmv, hm, dictReverseLookup, hp]
  · intro ts hq hlen
    match ts, hlen with
    | a :: b :: r, _ => simp [fget, hgc, hq]

/-- Concrete mapped command specification (the end-to-end example of the
spec: `values = LOW -> 0, HIGH -> 1` with mapping enabled). -/
def c4spec : ControlSpec :=
  control (some "V?") (some "V %d") idValidator
    (.dict [(.str "LOW", .int 0), (.str "HIGH", .int 1)]) true
    (fun v => v) (fun v => v) (fun c => c)

/-- Witness for C4: a single reply token `1` decodes through the mapping to
`HIGH`. -/
theorem C4_witness :
    (fget c4spec (fun _ => [.int 1])).1 = .ok (.str "HIGH") := by
  have h := (C4_read_decoding c4spec (fun _ => [.int 1]) "V?" rfl).1
    (.int 1) rfl
  exact (h.2.2 rfl _ rfl).2 (.str "HIGH", .int 1) rfl

/-! ### Claim C5: the read-side translation inverts the write-side one -/

theorem listIndexAux_mem (v : PyVal) :
    ∀ (l : List PyVal) (i : Nat), v ∈ l →
      ∃ j : Nat, listIndexAux l v i = .ok ((i + j : Nat) : Int)
        ∧ l.get? j = some v := by
  intro l
  induction l with
  | nil => intro i h; simp at h
  | cons x rest ih =>
      intro i h
      by_cases hx : x = v
      · exact ⟨0, by simp [listIndexAux, hx], by simp [hx]⟩
      · have hv : v ∈ rest := by
          rcases List.mem_cons.mp h with h' | h'
          · exact absurd h'.symm hx
          · exact h'
        obtain ⟨j, hj1, hj2⟩ := ih (i + 1) hv
        refine ⟨j + 1, ?_, by simpa using hj2⟩
        simp [listIndexAux, hx]
        rw [hj1]
        congr 1
        push_cast
        omega

theorem pyIndex_natCast (l : List PyVal) (j : Nat) (v : PyVal)
    (h : l.get? j = some v) : pyIndex l ((j : Nat) : Int) = .ok v := by
  have h0 : ¬ (((j : Nat) : Int) < 0) := by omega
  have hj : (((j : Nat) : Int)).toNat = j := by omega
  simp only [pyIndex, h0, if_false, ite_false, hj, h]

/-- Command specification with mapping enabled and identity validator and
processors, as assumed by claim C5. -/
def mkMapSpec (gc sc : String) (vals : Values) : ControlSpec :=
  control (some gc) (some sc) idValidator vals true
    (fun v => v) (fun v => v) (fun c => c)

/-- C5: with value mapping enabled, identity processors and identity
validator, the read-side translation is a left inverse of the write-side
translation.  For a mapping whose values determine their keys (a bijective
mapping), writing `v` issues the wire code `allowed_values[v]` and a read
decoding that wire code returns `v` again; for a sequence, writing `v`
issues the index of `v` and a read decoding that index returns `v` again. -/
theorem C5_roundtrip (gc sc : String) :
    (∀ (m : List (PyVal × PyVal)) (v c : PyVal) (ct : PyScalar),
      (∀ p ∈ m, ∀ p' ∈ m, p.2 = p'.2 → p.1 = p'.1) →
      dictGet m v = .ok c → ct.toVal = c →
      fset (mkMapSpec gc sc (.dict m)) v = (.ok (), [.write sc c])
      ∧ (fget (mkMapSpec gc sc (.dict m)) (fun _ => [ct])).1 = .ok v)
    ∧ (∀ (l : List PyVal) (v : PyVal), v ∈ l →
        ∃ i : Nat,
          fset (mkMapSpec gc sc (.seq l)) v =
            (.ok (), [.write sc (.int (Int.ofNat i))])
          ∧ (fget (mkMapSpec gc sc (.seq l))
              (fun _ => [.int (Int.ofNat i)])).1 = .ok v) := by
  constructor
  · intro m v c ct hinj hget hct
    obtain ⟨p₀, hf, hp₀2⟩ :
        ∃ p₀, m.find? (fun p => p.1 = v) = some p₀ ∧ p₀.2 = c := by
      revert hget
      cases hf : m.find? (fun p => p.1 = v) with
      | none => intro hget; simp [dictGet, hf] at hget
      | some p₀ =>
          intro hget
          simp [dictGet, hf] at hget
          exact ⟨p₀, rfl, hget⟩
    have hmem : p₀ ∈ m := List.mem_of_find?_eq_some hf
    have hp₀1 : p₀.1 = v := by
      have := List.find?_some hf
      simpa using this
    constructor
    · simp [fset, mkMapSpec, control, idValidator, dictGet, hf, hp₀2]
    · cases hr : m.find? (fun p => p.2 = c) with
      | none =>
          exfalso
          have := List.find?_eq_none.mp hr p₀ hmem
          simp [hp₀2] at this
      | some p' =>
          have hmem' : p' ∈ m := List.mem_of_find?_eq_some hr
          have hp'2 : p'.2 = c := by
            have := List.find?_some hr
            simpa using this
          have hp'1 : p'.1 = v := by
            have := hinj p' hmem' p₀ hmem (by rw [hp'2, hp₀2])
            rw [this, hp₀1]
          simp [fget, mkMapSpec, control, dictReverseLookup, hct, hr, hp'1]
  · intro l v hv
    obtain ⟨j, hj1, hj2⟩ := listIndexAux_mem v l 0 hv
    have hj1' : listIndexAux l v 0 = .ok ((j : Nat) : Int) := by
      simpa using hj1
    have hpy : pyIndex l ((j : Nat) : Int) = .ok v := pyIndex_natCast l j v hj2
    refine ⟨j, ?_, ?_⟩
    · simp [fset, mkMapSpec, control, idValidator, listIndex, hj1',
        Except.map]
    · simp [fget, mkMapSpec, control, pyInt, PyScalar.toVal, hpy]

/-- The concrete bijective mapping of the C5 witness. -/
def c5m : List (PyVal × PyVal) :=
  [(.str "LOW", .int 0), (.str "HIGH", .int 1)]

/-- Witness for C5: writing `HIGH` encodes to wire code `1`, and a read
decoding wire code `1` returns `HIGH`; writing the sequence element `20`
encodes to its index and decoding that index returns `20`. -/
theorem C5_witness :
    (fset (mkMapSpec "V?" "V %d" (.dict c5m)) (.str "HIGH") =
        (.ok (), [.write "V %d" (.int 1)])
      ∧ (fget (mkMapSpec "V?" "V %d" (.dict c5m))
          (fun _ => [.int 1])).1 = .ok (.str "HIGH"))
    ∧ ∃ i : Nat,
        fset (mkMapSpec "V?" "V %d" (.seq [.int 10, .int 20])) (.int 20) =
          (.ok (), [.write "V %d" (.int (i : Int))])
        ∧ (fget (mkMapSpec "V?" "V %d" (.seq [.int 10, .int 20]))
            (fun _ => [.int (i : Int)])).1 = .ok (.int 20) :=
  ⟨(C5_roundtrip "V?" "V %d").1 c5m (.str "HIGH") (.int 1) (.int 1)
      (by decide) rfl rfl,
   (C5_roundtrip "V?" "V %d").2 [.int 10, .int 20] (.int 20) (by decide)⟩

/-! ### Claim C9: the status query -/

/-- Session state whose last identification probe failed (the
communication-health flag is down): the degraded branch of `status`. -/
def c9state : InstrumentState :=
  ⟨"Keithley 2602B", true, false, false, false, "Keithley", [], []⟩

/-- C9 (code bug): the claim says the status query always returns one of
busy, ready or degraded and never fails.  In the code, the degraded branch
calls `self.get_id(check_for_errors=False)`, but the parameter of `get_id`
is named `check_errs`, so the call raises `TypeError` — `status` fails on
every session whose last identification probe failed, even when a fresh
probe would match the declared id prefix (here the device would answer
`Keithley ...`, matching the `Keithley` prefix, yet `status` still
raises). -/
theorem C9_status_degraded_raises :
    status c9state "Keithley Instruments, Model 2602B" =
      .error (.typeError
        "get_id() got an unexpected keyword argument check_for_errors") := by
  rfl

/-! ### Claim C10: shutdown is a one-bit, permissive transition -/

/-- C10: `shutdown` (invoked unconditionally by `__exit__`, whether or not
the scoped block failed) sets the shutdown flag and modifies no other
session field; `status` — the only other modelled operation that returns an
updated state — never changes the flag, so nothing resets it; and every
transaction (`ask`, `write`, `read`, `values`, `binary_values`) behaves
after `shutdown` exactly as it did before: the implementation is permissive
and never raises an `AlreadyShutDown`-style error. -/
theorem C10_shutdown_frame :
    (∀ st : InstrumentState,
        (shutdown st).isShutdown = true
        ∧ (shutdown st).name = st.name
        ∧ (shutdown st).scpi = st.scpi
        ∧ (shutdown st).communication_success = st.communication_success
        ∧ (shutdown st).lockLocked = st.lockLocked
        ∧ (shutdown st).idStartsWith = st.idStartsWith
        ∧ (shutdown st).specialNames = st.specialNames
        ∧ (shutdown st).instDict = st.instDict)
    ∧ (∀ (st : InstrumentState) (b : Bool), exitContext st b = shutdown st)
    ∧ (∀ (st : InstrumentState) (r msg : String) (st' : InstrumentState),
        status st r = .ok (msg, st') → st'.isShutdown = st.isShutdown)
    ∧ (∀ (st : InstrumentState) (dev : Device) (cmd : String) (b : Bool),
        ask (shutdown st) dev cmd b = ask st dev cmd b)
    ∧ (∀ (st : InstrumentState) (dev : Device) (cmd : String),
        write (shutdown st) dev cmd = write st dev cmd)
    ∧ (∀ (st : InstrumentState) (dev : Device),
        read (shutdown st) dev = read st dev)
    ∧ (∀ (st : InstrumentState) (dev : Device) (cmd : String),
        values (shutdown st) dev cmd = values st dev cmd)
    ∧ (∀ (st : InstrumentState) (dev : Device) (cmd : String),
        binary_values (shutdown st) dev cmd = binary_values st dev cmd) := by
  refine ⟨?_, ?_, ?_, ?_, ?_, ?_, ?_, ?_⟩
  · intro st
    exact ⟨rfl, rfl, rfl, rfl, rfl, rfl, rfl, rfl⟩
  · intro st b; rfl
  · intro st r msg st' h
    by_cases hc : st.communication_success = false
    · have hkw : ∀ (f : Bool → Except Err String) (a : Bool),
          callGetIdKw "check_for_errors" f a =
            .error (.typeError
              "get_id() got an unexpected keyword argument check_for_errors") :=
        fun f a => rfl
      simp [status, hc, hkw] at h
    · simp [status, hc] at h
      by_cases hl : st.lockLocked
      · simp [hl] at h
        rw [← h.2]
      · simp [hl] at h
        rw [← h.2]
  · intro st dev cmd b; rfl
  · intro st dev cmd; rfl
  · intro st dev; rfl
  · intro st dev cmd; rfl
  · intro st dev cmd; rfl

/-- Witness for C10 at a concrete state and device: the shutdown flag is
set on block exit, `status` preserves it, and `ask` answers identically
before and after shutdown. -/
theorem C10_witness :
    (shutdown c7state).isShutdown = true
    ∧ exitContext c7state true = shutdown c7state
    ∧ ask (shutdown c7state) c6dev "*IDN?" false =
        ask c7state c6dev "*IDN?" false :=
  ⟨(C10_shutdown_frame.1 c7state).1,
   C10_shutdown_frame.2.1 c7state true,
   C10_shutdown_frame.2.2.2.1 c7state c6dev "*IDN?" false⟩

/-! ### Claims C1 and C2: effective-configuration resolution and the
override namespace -/

theorem string_append_left_cancel (a b c : String) (h : a ++ b = a ++ c) :
    b = c := by
  have h' : a.data ++ b.data = a.data ++ c.data := congrArg String.data h
  have h2 := List.append_cancel_left h'
  exact congrArg String.mk h2

theorem pfx_ne_special_names (x : String) :
    reservedPfx ++ x ≠ "_special_names" := by
  intro h
  have h' : '_' :: '_' :: '_' :: x.data = "_special_names".data :=
    congrArg String.data h
  have h2 := congrArg (fun l => List.take 3 l) h'
  simp [List.take] at h2

theorem pfx_ne_dict_name (x : String) : reservedPfx ++ x ≠ "__dict__" := by
  intro h
  have h' : '_' :: '_' :: '_' :: x.data = "__dict__".data :=
    congrArg String.data h
  have h2 := congrArg (fun l => List.take 3 l) h'
  simp [List.take] at h2

/-- Reading a reserved-prefixed name is never blocked (as long as the
prefixed name is not itself reserved): `Instrument.__getattribute__` falls
back to the default lookup. -/
theorem instGetattr_pfx {α : Type} (mro : List (PyClass α))
    (special : List String) (d : List (String × α)) (x : String)
    (hpfx : reservedPfx ++ x ∉ special) :
    instGetattr mro special d (reservedPfx ++ x) =
      match objectGetattr mro d (reservedPfx ++ x) with
      | some v => .ok v
      | none => .error (.attributeError (reservedPfx ++ x)) := by
  have h1 := pfx_ne_special_names x
  have h2 := pfx_ne_dict_name x
  simp [instGetattr, h1, h2, hpfx]

theorem foldl_if_filter {α : Type} (special : List String) :
    ∀ (l : List (String × α)) (d : List (String × α)),
      l.foldl
        (fun d kv =>
          if kv.1 ∈ special then setD d (reservedPfx ++ kv.1) kv.2 else d)
        d =
      (l.filter fun kv => decide (kv.1 ∈ special)).foldl
        (fun d kv => setD d (reservedPfx ++ kv.1) kv.2) d := by
  intro l
  induction l with
  | nil => intro d; rfl
  | cons kv rest ih =>
      intro d
      by_cases h : kv.1 ∈ special
      · simp [List.filter_cons, h, ih]
      · simp [List.filter_cons, h, ih]

/-- The two nested loops of the snapshot are one fold of plain assignments
over the special-named class variables, flattened along the
method-resolution order. -/
theorem snapshotOverrides_eq_assignments {α : Type} (special : List String) :
    ∀ (mro : List (PyClass α)) (d : List (String × α)),
      snapshotOverrides mro special d =
        ((mro.flatMap fun c => c.vars).filter fun kv =>
            decide (kv.1 ∈ special)).foldl
          (fun d kv => setD d (reservedPfx ++ kv.1) kv.2) d := by
  intro mro
  induction mro with
  | nil => intro d; rfl
  | cons c rest ih =>
      intro d
      have hstep : snapshotOverrides (c :: rest) special d =
          snapshotOverrides rest special
            (c.vars.foldl
              (fun d kv =>
                if kv.1 ∈ special then setD d (reservedPfx ++ kv.1) kv.2
                else d)
              d) := rfl
      rw [hstep, ih, foldl_if_filter, List.flatMap_cons, List.filter_append,
        List.foldl_append]

theorem find?_append' {β : Type} (p : β → Bool) :
    ∀ (l₁ l₂ : List β), (l₁ ++ l₂).find? p =
      match l₁.find? p with
      | some x => some x
      | none => l₂.find? p := by
  intro l₁ l₂
  induction l₁ with
  | nil => simp
  | cons a rest ih =>
      by_cases h : p a
      · simp [List.find?_cons, h]
      · simp [List.find?_cons, h, ih]

theorem lookupD_foldl_setD {α : Type} (key : String) :
    ∀ (l : List (String × α)) (d : List (String × α)),
      lookupD (l.foldl (fun d kv => setD d (reservedPfx ++ kv.1) kv.2) d)
        key =
      match l.reverse.find? (fun kv => reservedPfx ++ kv.1 = key) with
      | some kv => some kv.2
      | none => lookupD d key := by
  intro l
  induction l with
  | nil => intro d; simp
  | cons kv rest ih =>
      intro d
      rw [List.foldl_cons, ih, List.reverse_cons, find?_append']
      cases hf : rest.reverse.find?
          (fun kv' => decide (reservedPfx ++ kv'.1 = key)) with
      | some p => rfl
      | none =>
          by_cases hk : reservedPfx ++ kv.1 = key
          · rw [List.find?_cons_of_pos _ (by simpa using hk)]
            rw [← hk]
            exact lookupD_setD_same d (reservedPfx ++ kv.1) kv.2
          · rw [List.find?_cons_of_neg _ (by simpa using hk), List.find?_nil]
            exact lookupD_setD_other d (reservedPfx ++ kv.1) key kv.2
              fun hh => hk hh.symm

theorem find?_filter_of_imp {β : Type} (p q : β → Bool)
    (himp : ∀ x, q x = true → p x = true) :
    ∀ l : List β, (l.filter p).find? q = l.find? q := by
  intro l
  induction l with
  | nil => rfl
  | cons a rest ih =>
      by_cases hq : q a
      · have hp := himp a hq
        simp [List.filter_cons, hp, List.find?_cons, hq, ih]
      · by_cases hp : p a
        · simp [List.filter_cons, hp, List.find?_cons, hq, ih]
        · simp [List.filter_cons, hp, List.find?_cons, hq, ih]

/-- The class-level override for a special name that the snapshot retains:
the value of the *last* declaration along the flattened method-resolution
order (the least-derived declaring class). -/
def classOverride {α : Type} (mro : List (PyClass α)) (name : String) :
    Option α :=
  ((mro.flatMap fun c => c.vars).reverse.find? fun kv => kv.1 = name).map
    Prod.snd

/-- What construction leaves in the instance dict under the
reserved-prefixed key of a special name: exactly the class-level override
retained by the snapshot. -/
theorem lookupD_constructedDict {α : Type} (mro : List (PyClass α))
    (name : String) (hname : name ∈ specialNamesOf mro) :
    lookupD (constructedDict mro) (reservedPfx ++ name) =
      classOverride mro name := by
  rw [constructedDict, snapshotOverrides_eq_assignments,
    lookupD_foldl_setD]
  have hfun : (fun kv : String × α =>
      decide (reservedPfx ++ kv.1 = reservedPfx ++ name)) =
      fun kv => decide (kv.1 = name) := by
    funext kv
    apply decide_eq_decide.mpr
    constructor
    · exact fun h => string_append_left_cancel _ _ _ h
    · intro h; rw [h]
  rw [hfun, ← List.filter_reverse, find?_filter_of_imp]
  · cases hf : (mro.flatMap fun c => c.vars).reverse.find?
        (fun kv => decide (kv.1 = name)) with
    | some p => simp [classOverride, hf]
    | none => simp [classOverride, hf, lookupD]
  · intro x hx
    have hx' : x.1 = name := of_decide_eq_true hx
    rw [hx']
    exact decide_eq_true hname

/-- Most-derived class of the C1 counterexample: declares the dynamic
command `freq` and the subclass-level override `freq_values = 1`. -/
def derivedCE : PyClass Nat := ⟨["freq"], [("freq_values", 1)]⟩

/-- Base class of the C1 counterexample: also declares `freq_values`,
with value `2`. -/
def baseCE : PyClass Nat := ⟨[], [("freq_values", 2)]⟩

/-- Method-resolution order of the C1 counterexample, most-derived class
first, as `self.__class__.__mro__` yields it. -/
def mroCE : List (PyClass Nat) := [derivedCE, baseCE]

/-- C1 counterexample: both the most-derived class (value `1`) and its base
class (value `2`) declare the subclass-level override `freq_values`.  The
claim says the most-derived class's value wins, so resolution should give
`1`; the constructed session resolves the field to `2`, the base class's
value, because the snapshot loop walks the method-resolution order
most-derived first and each assignment overwrites the previous one. -/
theorem C1_counterexample :
    lookupD derivedCE.vars ("freq" ++ "_" ++ "values") = some 1
    ∧ lookupD baseCE.vars ("freq" ++ "_" ++ "values") = some 2
    ∧ dynParamResolve mroCE (specialNamesOf mroCE) (constructedDict mroCE)
        "freq" "values" 0 = 2
    ∧ (2 : Nat) ≠ 1 := by
  refine ⟨rfl, rfl, ?_, by decide⟩
  rfl

/-- C1 (amended): for every dynamic command and configurable field, the
effective configuration used by an access is resolved anew at that access
by taking the instance-level override named `<command>_<field>` when one
has been assigned (it is stored under the reserved-prefixed key, where the
descriptor reads it back), otherwise the subclass-level override
snapshotted at session construction — the value of the *last* class in
method-resolution order that declares one winning, i.e. a base class's
declaration overrides its subclass's — otherwise the default declared in
the command specification. -/
theorem C1_amended_resolution {α : Type} (mro : List (PyClass α))
    (prop param : String) (dflt v : α)
    (hname : prop ++ "_" ++ param ∈ specialNamesOf mro)
    (hpfx : reservedPfx ++ (prop ++ "_" ++ param) ∉ specialNamesOf mro)
    (hnovar : ∀ c ∈ mro,
        lookupD c.vars (reservedPfx ++ (prop ++ "_" ++ param)) = none) :
    (dynParamResolve mro (specialNamesOf mro)
        (instSetattr (specialNamesOf mro) (constructedDict mro)
          (prop ++ "_" ++ param) v) prop param dflt = v)
    ∧ (dynParamResolve mro (specialNamesOf mro) (constructedDict mro)
        prop param dflt =
        match classOverride mro (prop ++ "_" ++ param) with
        | some w => w
        | none => dflt) := by
  constructor
  · rw [dynParamResolve, instGetattr_pfx mro _ _ _ hpfx]
    rw [instSetattr, if_pos hname, objectGetattr,
      lookupD_setD_same]
    rfl
  · rw [dynParamResolve, instGetattr_pfx mro _ _ _ hpfx, objectGetattr,
      lookupD_constructedDict mro _ hname]
    cases hco : classOverride mro (prop ++ "_" ++ param) with
    | some w => rfl
    | none =>
        have hfs : (mro.findSome? fun c =>
            lookupD c.vars (reservedPfx ++ (prop ++ "_" ++ param))) = none :=
          List.findSome?_eq_none_iff.mpr hnovar
        simp only [hfs]
        rfl

/-- Concrete setup for the C1 witness: a derived class declaring the
dynamic command `freq`, a base class declaring the only class-level
override `freq_values = 7`. -/
def c1mro : List (PyClass Nat) := [⟨["freq"], []⟩, ⟨[], [("freq_values", 7)]⟩]

/-- Witness for C1 (amended): an instance-level assignment wins over the
snapshot, and without one the snapshotted class-level override (here `7`)
is used. -/
theorem C1_witness :
    dynParamResolve c1mro (specialNamesOf c1mro)
      (instSetattr (specialNamesOf c1mro) (constructedDict c1mro)
        ("freq" ++ "_" ++ "values") 5) "freq" "values" 0 = 5
    ∧ dynParamResolve c1mro (specialNamesOf c1mro) (constructedDict c1mro)
        "freq" "values" 0 = 7 := by
  have h := C1_amended_resolution c1mro "freq" "values" 0 5
    (by decide) (by decide) (by decide)
  exact ⟨h.1, by rw [h.2]; rfl⟩

/-- C2: for every name in the override namespace of a constructed session,
assigning to it through the normal attribute surface succeeds (the value
lands under the reserved-prefixed key) and affects subsequent resolution;
reading it through the normal attribute surface always fails with
`AttributeError`, whatever the instance state; the value remains reachable
through the descriptor's internal resolution path. -/
theorem C2_override_surface {α : Type} (mro : List (PyClass α))
    (d : List (String × α)) (prop param : String) (v : α) (dflt : α)
    (hname : prop ++ "_" ++ param ∈ specialNamesOf mro)
    (hpfx : reservedPfx ++ (prop ++ "_" ++ param) ∉ specialNamesOf mro)
    (hne1 : prop ++ "_" ++ param ≠ "_special_names")
    (hne2 : prop ++ "_" ++ param ≠ "__dict__") :
    (instSetattr (specialNamesOf mro) d (prop ++ "_" ++ param) v =
      setD d (reservedPfx ++ (prop ++ "_" ++ param)) v)
    ∧ (∀ d' : List (String × α),
        instGetattr mro (specialNamesOf mro) d' (prop ++ "_" ++ param) =
          .error (.attributeError ((prop ++ "_" ++ param) ++
            " is a reserved variable name and it cannot be read")))
    ∧ dynParamResolve mro (specialNamesOf mro)
        (instSetattr (specialNamesOf mro) d (prop ++ "_" ++ param) v)
        prop param dflt = v := by
  refine ⟨?_, ?_, ?_⟩
  · rw [instSetattr, if_pos hname]
  · intro d'
    simp [instGetattr, hne1, hne2, hname]
  · rw [dynParamResolve, instGetattr_pfx mro _ _ _ hpfx]
    rw [instSetattr, if_pos hname, objectGetattr, lookupD_setD_same]
    rfl

/-- Concrete setup for the C2 witness. -/
def c2mro : List (PyClass Nat) := [⟨["volt"], []⟩]

/-- Witness for C2: after assigning `volt_values` on the instance, reading
`volt_values` back through the attribute surface fails, while the
descriptor's resolution sees the assigned value. -/
theorem C2_witness :
    instGetattr c2mro (specialNamesOf c2mro)
      (instSetattr (specialNamesOf c2mro) [] ("volt" ++ "_" ++ "values") 9)
      ("volt" ++ "_" ++ "values") =
      .error (.attributeError (("volt" ++ "_" ++ "values") ++
        " is a reserved variable name and it cannot be read"))
    ∧ dynParamResolve c2mro (specialNamesOf c2mro)
        (instSetattr (specialNamesOf c2mro) [] ("volt" ++ "_" ++ "values") 9)
        "volt" "values" 0 = 9 := by
  have h := C2_override_surface c2mro [] "volt" "values" 9 0
    (by decide) (by decide) (by decide) (by decide)
  exact ⟨h.2.1 _, h.2.2⟩

end PyMeasure
